import Mathlib

/-!
Verification of the eywa websocket connection core: a shallow embedding of
`connections/connection.go`, `connections/connection_manager.go` and
`models/connection_status.go`, with theorems checking the natural-language
specification against the embedded code.

Conventions of the embedding:
* Go machine integers become `Nat`/`Int`, with `% 2^32` made explicit where
  32-bit overflow matters (the Murmur3 hash).
* Go maps become association lists with map semantics (`mput` overwrites).
* `time.Time` is modelled by its `UnixNano` reading plus its `IsZero` flag.
* Buffered channels are modelled by their buffer contents (a list); sending
  on a closed channel is an explicit `panicked` value, so that `recover`
  can be modelled faithfully.
* Concurrency is modelled by explicit interleavings: the relevant atomic
  actions of the caller goroutine and of the writer goroutine are reified
  as an action type, and executions are folds over action traces.
-/

/-! ## Basic data of the engine (`connections/connection.go`) -/

/-- Errors produced by the connection engine.  `websocketError` models the
`*WebsocketError` type of connection.go (transport-level); the other
constructors model the `errors.New(...)` values the engine creates, keyed by
the call site rather than by the formatted string. -/
inductive GoError
  | websocketError (message : String)
  | connectionClosed
  | requestTimedOut
  | responseTimedOut
  | unexpectedResponse
  | marshalError (message : String)
  deriving DecidableEq, Repr

/-- The type switch `if _, ok := err.(*WebsocketError); ok` used by both
`wListen` and `rListen` to decide whether an error is transport-level. -/
def GoError.isWebsocketError : GoError → Bool
  | .websocketError _ => true
  | _ => false

/-- Message type tags.  The constants live in a file not under `src/`; the
spec (§6) fixes them: AsyncRequest=1, SyncRequest=2, Response=3, Close=4. -/
def AsyncRequestMessage : Nat := 1

def SyncRequestMessage : Nat := 2

def ResponseMessage : Nat := 3

def CloseMessage : Nat := 4

/-- A framed message `{type, id, payload}` (`Message` in the Go source);
payload bytes are `Nat`s below 256. -/
structure Message where
  messageType : Nat
  messageId : String
  payload : List Nat
  deriving DecidableEq, Repr

/-- Type `MessageResp` — what a writer/reader delivers into a caller's result
slot: an optional message and an optional error. -/
structure MessageResp where
  msg : Option Message
  err : Option GoError
  deriving DecidableEq, Repr

/-- Type `MessageReq` — an entry of the writer inbox `wch`: the frame plus the
identifier of the caller's capacity-1 result channel. -/
structure MessageReq where
  msg : Message
  respCh : Nat
  deriving DecidableEq, Repr

/-! ## The pending-request table (`syncRespChanMap`)

The Go type is a mutex plus `map[string]chan *MessageResp`.  We embed the
map as an association list whose values are channel identifiers; each of
`put`/`find`/`delete`/`len` runs under the mutex, i.e. is one atomic action
here. -/

/-- Removal of a key, Go's `delete(m, k)` (string-keyed maps are embedded
as association lists, generically in the value type). -/
def mdelete {β : Type} (k : String) (l : List (String × β)) : List (String × β) :=
  l.filter (fun p => p.1 ≠ k)

/-- Assignment `m[k] = v` — Go map assignment overwrites any previous
binding. -/
def mput {β : Type} (k : String) (v : β) (l : List (String × β)) : List (String × β) :=
  (k, v) :: mdelete k l

/-- Lookup `v, found := m[k]` — no removal. -/
def mfind {β : Type} (k : String) (l : List (String × β)) : Option β :=
  (l.find? (fun p => p.1 = k)).map Prod.snd

/-- Go's `len(m)`. -/
def mlen {β : Type} (l : List (String × β)) : Nat :=
  l.length

/-! ## Close-once teardown (`WebSocketConnection.Close`, connection.go:302-310)

`Close` guards its body with `sync.Once`; the body sets `closed`, closes
`wch` and `rch`, sends on `closewch`, and calls `shard.unregister`.  We
model the once-latch plus counters for each side effect, so "at most once"
is a statement about the counters. -/

/-- The state touched by `Close`: the `sync.Once` latch, the `closed` flag,
the open/closed state of `wch` and `rch`, the number of values sent on
`closewch`, and the number of `shard.unregister(c)` calls. -/
structure CloseState where
  onceDone : Bool
  closed : Bool
  wchClosed : Bool
  rchClosed : Bool
  closewchSends : Nat
  unregisterCalls : Nat
  deriving DecidableEq, Repr

/-- A connection before any `Close` call. -/
def CloseState.initial : CloseState :=
  { onceDone := false, closed := false, wchClosed := false, rchClosed := false
    closewchSends := 0, unregisterCalls := 0 }

/-- Method `Close()` (connection.go:302-310): `closeOnce.Do` runs the body only if
the latch is untripped; the body sets `closed = true`, `close(c.wch)`,
`close(c.rch)`, `c.closewch <- true`, `c.shard.unregister(c)`. -/
def Close (st : CloseState) : CloseState :=
  if st.onceDone then st
  else
    { onceDone := true
      closed := true
      wchClosed := true
      rchClosed := true
      closewchSends := st.closewchSends + 1
      unregisterCalls := st.unregisterCalls + 1 }

/-! ## The send_sync / writer race (connection.go:139-218)

After `sendMessage` has enqueued a SyncRequest into `wch` and the writer
has accepted it, three atomic actions can interleave when no Response ever
arrives: the writer's `c.msgChans.put(msgId, respCh)` after a successful
transport write (line 207), the caller's response-timeout branch (lines
176-179), and the caller's deferred `c.msgChans.delete(msgId)` (lines
169-171) which runs on return.  Program order fixes timeout before delete
on the caller; the writer's put is unordered with respect to both. -/

/-- State visible to the race: the pending table, the error the caller
will return, and whether the caller has returned. -/
structure SyncWaitState where
  pending : List (String × Nat)
  callerErr : Option GoError
  returned : Bool
  deriving DecidableEq, Repr

/-- The state before either goroutine has acted: empty pending table. -/
def SyncWaitState.initial : SyncWaitState :=
  { pending := [], callerErr := none, returned := false }

/-- The atomic actions of the race. -/
inductive SyncAction
  | writerPut
  | callerTimeout
  | callerDelete
  deriving DecidableEq, Repr

/-- One atomic action, for the sync request with id `msgId` and result
channel `respCh`:
`writerPut` is `c.msgChans.put(req.msg.MessageId, req.respCh)` (line 207);
`callerTimeout` is the `<-time.After(timeout)` branch setting the
response-timed-out error (lines 177-179); `callerDelete` is the deferred
`c.msgChans.delete(msgId)` that runs as the call returns (lines 169-171). -/
def syncStep (msgId : String) (respCh : Nat) (st : SyncWaitState) :
    SyncAction → SyncWaitState
  | .writerPut => { st with pending := mput msgId respCh st.pending }
  | .callerTimeout => { st with callerErr := some .responseTimedOut }
  | .callerDelete => { st with pending := mdelete msgId st.pending, returned := true }

/-- Run a trace of atomic actions from a state. -/
def syncRun (msgId : String) (respCh : Nat) (st : SyncWaitState)
    (tr : List SyncAction) : SyncWaitState :=
  tr.foldl (syncStep msgId respCh) st

/-- All interleavings of two sequential programs (each list is one task's
program order; the result lists every merge preserving both orders). -/
def interleavings {α : Type} : List α → List α → List (List α)
  | [], ys => [ys]
  | x :: xs, [] => [x :: xs]
  | x :: xs, y :: ys =>
      (interleavings xs (y :: ys)).map (fun t => x :: t) ++
      (interleavings (x :: xs) ys).map (fun t => y :: t)
termination_by xs ys => xs.length + ys.length

/-- Index of the first occurrence of an action in a trace. -/
def idxOfA {α : Type} [DecidableEq α] : List α → α → Nat
  | [], _ => 0
  | x :: xs, a => if x = a then 0 else idxOfA xs a + 1

/-- The caller's program order and the writer's single action, for one
timed-out sync request. -/
def syncCallerProgram : List SyncAction := [.callerTimeout, .callerDelete]

def syncWriterProgram : List SyncAction := [.writerPut]

/-! ## The reader task on Response frames (`rListen`, connection.go:268-300)

We embed the Response branch of `rListen` (lines 286-294) as a function on
a reader-visible state; the sequential statements of the branch are also
reified as an ordered effect list, so ordering facts (removal before slot
delivery) are statements about that list. -/

/-- The per-channel delivered values: `ch <- &MessageResp{...}` appends to
the buffer of channel `ch`. -/
def slotDeliveries (ch : Nat) (slots : List (Nat × List MessageResp)) :
    List MessageResp :=
  ((slots.find? (fun p => p.1 = ch)).map Prod.snd).getD []

/-- Deliver one response into channel `ch`'s buffer. -/
def slotPush (ch : Nat) (r : MessageResp) :
    List (Nat × List MessageResp) → List (Nat × List MessageResp)
  | [] => [(ch, [r])]
  | (c, buf) :: rest =>
      if c = ch then (c, buf ++ [r]) :: rest else (c, buf) :: slotPush ch r rest

/-- State visible to the reader's Response branch: the pending table, the
result-channel buffers, the sequence of handler invocations
`(message, err)`, and whether `Close()` has been triggered. -/
structure ReaderState where
  pending : List (String × Nat)
  slots : List (Nat × List MessageResp)
  handlerCalls : List (Option Message × Option GoError)
  closeCalled : Bool
  deriving DecidableEq, Repr

/-- The sequential effects of one pass through the Response branch, in
statement order. -/
inductive ReaderEffect
  | pendingDelete (id : String)
  | slotDeliver (ch : Nat) (r : MessageResp)
  | handlerCall (m : Option Message) (e : Option GoError)
  deriving DecidableEq, Repr

/-- The Response branch of `rListen` (connection.go:286-294): look up
`msgChans[message.MessageId]`; if found, delete the entry, send
`&MessageResp{msg: message}` on the channel, call the handler with
`(c, message, nil)`; if not found, call the handler with the
unexpected-response error.  Neither branch calls `Close()`. -/
def rListenResponse (message : Message) (st : ReaderState) :
    ReaderState × List ReaderEffect :=
  match mfind message.messageId st.pending with
  | some ch =>
      ({ st with
          pending := mdelete message.messageId st.pending
          slots := slotPush ch ⟨some message, none⟩ st.slots
          handlerCalls := st.handlerCalls ++ [(some message, none)] },
        [.pendingDelete message.messageId,
          .slotDeliver ch ⟨some message, none⟩,
          .handlerCall (some message) none])
  | none =>
      ({ st with
          handlerCalls := st.handlerCalls ++ [(some message, some .unexpectedResponse)] },
        [.handlerCall (some message) (some .unexpectedResponse)])

/-! ## The send path (`sendMessage`, connection.go:139-188)

`sendMessage` allocates a message id from the wall clock, enqueues a
`MessageReq` into `wch` (guarded by the request timeout), and waits on the
result channel (guarded by the response timeout for sync requests).  A
`defer`red `recover` converts the panic raised by sending on a closed
inbox into the connection-closed error.  The environment record captures
the interaction points with the rest of the system. -/

/-- The call `strconv.FormatInt(time.Now().UnixNano(), 16)` (connection.go:148) for
a non-negative clock reading: the lowercase base-16 digits. -/
def natToHex (n : Nat) : String :=
  String.mk (Nat.toDigits 16 n)

/-- The id `sendMessage` allocates is a function of the clock reading
alone (connection.go:148). -/
def allocatedMsgId (nowNano : Nat) : String :=
  natToHex nowNano

/-- A Go computation that either returns a value or panics. -/
inductive PanicOr (α : Type)
  | panicked (reason : String)
  | value (v : α)
  deriving DecidableEq, Repr

/-- What the environment does to one `sendMessage` call: whether `wch` is
closed when the enqueue is attempted, whether the enqueue times out
(inbox full past the request timeout), and what — if anything — arrives
on the result channel before the second select's deadline. -/
structure SendEnv where
  wchClosedAtEnqueue : Bool
  enqueueTimedOut : Bool
  slotResp : Option MessageResp
  deriving DecidableEq, Repr

/-- The body of `sendMessage` (connection.go:139-188) before the deferred
`recover` is applied: allocate the id (line 148), build the message
(lines 149-153), select on enqueue versus the request timeout (lines
157-166) — sending on a closed `wch` panics — then select on the result
channel versus the timeout (lines 176-186), extracting the payload of
`resp.msg` when present and returning `resp.err`. -/
def sendMessageBody (messageType : Nat) (payload : List Nat) (nowNano : Nat)
    (env : SendEnv) : PanicOr (List Nat × Option GoError) :=
  let msgId := allocatedMsgId nowNano
  let _msg : Message := ⟨messageType, msgId, payload⟩
  if env.wchClosedAtEnqueue then
    .panicked "send on closed channel"
  else if env.enqueueTimedOut then
    .value ([], some .requestTimedOut)
  else
    match env.slotResp with
    | none => .value ([], some .responseTimedOut)
    | some resp =>
        .value
          ((match resp.msg with
            | some m => m.payload
            | none => []), resp.err)

/-- Method `sendMessage` with its deferred `recover` (connection.go:142-146): a
panic in the body becomes the normal return `([]byte{}, "connection is
closed")`. -/
def sendMessage (messageType : Nat) (payload : List Nat) (nowNano : Nat)
    (env : SendEnv) : List Nat × Option GoError :=
  match sendMessageBody messageType payload nowNano env with
  | .panicked _ => ([], some .connectionClosed)
  | .value v => v

/-! ## The writer task (`wListen`, connection.go:190-218)

One iteration of the writer loop on an accepted request: transmit via
`sendWsMessage`; on error, deliver `&MessageResp{msg: nil, err: err}` to
the caller's channel and call `Close()` iff the error is a
`*WebsocketError`; on success, insert `(msgId, respCh)` into `msgChans`
for a SyncRequest and otherwise deliver `&MessageResp{}`. -/

/-- State visible to one writer iteration. -/
structure WriterState where
  pending : List (String × Nat)
  slots : List (Nat × List MessageResp)
  closeCalled : Bool
  deriving DecidableEq, Repr

/-- One iteration of `wListen` on an accepted request (connection.go:
195-211), with `writeErr` the outcome of `sendWsMessage`. -/
def wListenStep (req : MessageReq) (writeErr : Option GoError)
    (st : WriterState) : WriterState :=
  match writeErr with
  | some e =>
      { st with
          slots := slotPush req.respCh ⟨none, some e⟩ st.slots
          closeCalled := st.closeCalled || e.isWebsocketError }
  | none =>
      if req.msg.messageType = SyncRequestMessage then
        { st with pending := mput req.msg.messageId req.respCh st.pending }
      else
        { st with slots := slotPush req.respCh ⟨none, none⟩ st.slots }

/-! ## send_async and the transport write outcome (C7)

`SendAsyncRequest` (connection.go:125-128) is `sendMessage` with the async
tag, discarding the payload of the result.  After the enqueue succeeds,
`sendMessage` does not return: it waits on the result channel, which the
writer completes only after the transport write (connection.go:176-186 and
195-211).  We compose the two models: the caller's second select receives
exactly what one writer iteration pushed into its channel. -/

/-- What one writer iteration delivers into the caller's result channel
for a given write outcome — read off from `wListenStep` applied to an
empty state. -/
def writerCompletion (req : MessageReq) (writeErr : Option GoError) :
    Option MessageResp :=
  (slotDeliveries req.respCh (wListenStep req writeErr (WriterState.mk [] [] false)).slots).head?

/-- Method `SendAsyncRequest(msg)` (connection.go:125-128) in the run where the
enqueue succeeds, the writer dequeues the request and its transport write
finishes with `writeErr`, and the writer's completion reaches the caller
before the deadline: the error the caller gets back. -/
def sendAsyncOutcome (payload : List Nat) (nowNano : Nat)
    (writeErr : Option GoError) : Option GoError :=
  (sendMessage AsyncRequestMessage payload nowNano
    ⟨false, false,
      writerCompletion ⟨⟨AsyncRequestMessage, allocatedMsgId nowNano, payload⟩, 0⟩
        writeErr⟩).2

/-! ## Message id allocation (C8, connection.go:148)

The send path allocates `msgId = strconv.FormatInt(time.Now().UnixNano(),
16)`: a pure function of the wall-clock reading, with no per-connection
counter.  Two sync sends whose clock readings coincide — bursty sends
within one clock tick — therefore allocate the same id while both response
windows are open. -/

/-! ## Sharded routing (`connection_manager.go`, C6)

Both `newConnection` (lines 115-124) and `findConnection` (lines 171-176)
compute `shard := wscm.shards[murmur3.Sum32(id) % uint32(len(shards))]`.
We embed the 32-bit Murmur3 hash of the `spaolacci/murmur3` library
(`New32`, seed 0) over the UTF-8 bytes of the identifier, as `Nat`
arithmetic with 32-bit overflow made explicit. -/

def M32 : Nat := 4294967296

def rotl32 (x r : Nat) : Nat :=
  ((x <<< r) ||| (x >>> (32 - r))) % M32

def mmC1 : Nat := 0xcc9e2d51

def mmC2 : Nat := 0x1b873593

/-- Little-endian combination of a byte list into one integer. -/
def le32 : List Nat → Nat
  | [] => 0
  | b :: rest => (b % 256) + 256 * le32 rest

/-- One 4-byte block step of Murmur3-32. -/
def murmurStep (h1 k : Nat) : Nat :=
  let k1 := (k * mmC1) % M32
  let k1 := rotl32 k1 15
  let k1 := (k1 * mmC2) % M32
  let h := h1 ^^^ k1
  let h := rotl32 h 13
  (h * 5 + 0xe6546b64) % M32

/-- Consume all full 4-byte blocks, returning the running hash and the
1-3 byte tail. -/
def murmurBlocks (h : Nat) : List Nat → Nat × List Nat
  | b0 :: b1 :: b2 :: b3 :: rest =>
      murmurBlocks (murmurStep h (le32 [b0, b1, b2, b3])) rest
  | rest => (h, rest)

/-- Mix the 1-3 byte tail into the hash. -/
def murmurTail (h1 : Nat) (tail : List Nat) : Nat :=
  match tail with
  | [] => h1
  | bs =>
      let k1 := (le32 bs * mmC1) % M32
      let k1 := rotl32 k1 15
      let k1 := (k1 * mmC2) % M32
      h1 ^^^ k1

/-- Murmur3 finalization mix. -/
def fmix32 (h : Nat) : Nat :=
  let h := h ^^^ (h >>> 16)
  let h := (h * 0x85ebca6b) % M32
  let h := h ^^^ (h >>> 13)
  let h := (h * 0xc2b2ae35) % M32
  h ^^^ (h >>> 16)

/-- Murmur3 32-bit digest, seed 0 (`murmur3.New32(); Write(b); Sum32()`). -/
def murmur3_32 (bytes : List Nat) : Nat :=
  let p := murmurBlocks 0 bytes
  let h := murmurTail p.1 p.2
  fmix32 (h ^^^ (bytes.length % M32))

/-- UTF-8 encoding of one code point. -/
def utf8Bytes (c : Nat) : List Nat :=
  if c < 0x80 then [c]
  else if c < 0x800 then [0xC0 ||| (c >>> 6), 0x80 ||| (c &&& 0x3F)]
  else if c < 0x10000 then
    [0xE0 ||| (c >>> 12), 0x80 ||| ((c >>> 6) &&& 0x3F), 0x80 ||| (c &&& 0x3F)]
  else
    [0xF0 ||| (c >>> 18), 0x80 ||| ((c >>> 12) &&& 0x3F),
      0x80 ||| ((c >>> 6) &&& 0x3F), 0x80 ||| (c &&& 0x3F)]

/-- The bytes `hasher.Write([]byte(id))` consumes: the UTF-8 encoding of
the identifier. -/
def strBytes (s : String) : List Nat :=
  s.data.foldr (fun c acc => utf8Bytes c.toNat ++ acc) []

/-- Shard selection in `newConnection` (connection_manager.go:121-123). -/
def shardIdxNewConnection (id : String) (n : Nat) : Nat :=
  murmur3_32 (strBytes id) % n

/-- Shard selection in `findConnection` (connection_manager.go:172-174). -/
def shardIdxFindConnection (id : String) (n : Nat) : Nat :=
  murmur3_32 (strBytes id) % n

/-- Modelled from the spec: `shard.register` lives in shard.go, which is
not under src/.  Per §4.4, registering under an identifier already present
replaces the stored connection, so each shard maps each identifier to at
most one connection; we model the successful registration as the map
insertion. -/
def shardRegister (id : String) (conn : Nat) (m : List (String × Nat)) :
    List (String × Nat) :=
  mput id conn m

/-- Modelled from the spec: `shard.findConnection` lives in shard.go, which
is not under src/.  Per §4.4, `find(id)` is a read-only map lookup. -/
def shardFind (id : String) (m : List (String × Nat)) : Option Nat :=
  mfind id m

/-- The manager's shard array: connections stand for their tokens. -/
structure ManagerState where
  shards : List (List (String × Nat))
  deriving DecidableEq, Repr

/-- Method `newConnection` on an open manager, success path (connection_manager.go:
115-169): select the shard by hash and register the connection with it. -/
def managerNewConnection (st : ManagerState) (id : String) (conn : Nat) :
    ManagerState :=
  let idx := shardIdxNewConnection id st.shards.length
  { shards := st.shards.set idx (shardRegister id conn (st.shards.getD idx [])) }

/-- Method `findConnection` (connection_manager.go:171-176): select the shard by
hash and look the identifier up there. -/
def managerFindConnection (st : ManagerState) (id : String) : Option Nat :=
  shardFind id (st.shards.getD (shardIdxFindConnection id st.shards.length) [])

/-- Every identifier-bearing entry sits in the shard its hash selects. -/
def wellPlaced (st : ManagerState) : Prop :=
  ∀ i, i < st.shards.length → ∀ id,
    (shardFind id (st.shards.getD i [])).isSome = true →
    i = shardIdxNewConnection id st.shards.length

/-! ## Connection status JSON snapshot (`models/connection_status.go`, C9)

`ConnectionStatus.MarshalJSON` (lines 28-75) assembles a
`map[string]interface{}` with one conditional insertion per field and then
serializes the map; we embed the assembled map itself (the serialization
of a string-keyed map is determined by it), reusing the association-list
embedding of Go maps. -/

/-- Shallow model of `time.Time`: its `UnixNano` reading and its `IsZero`
flag — the only two observations the status code makes of a time value. -/
structure GoTime where
  nano : Int
  isZero : Bool
  deriving DecidableEq, Repr

/-- Modelled from the spec: `NanoToMilli` lives in the utils package,
which is not under src/.  Per §3, externally reported values are
milliseconds; nanoseconds convert by division by 10^6, with Go integer
division truncating toward zero. -/
def NanoToMilli (nano : Int) : Int :=
  Int.tdiv nano 1000000

/-- Type `ConnectionHistory` (connection_status.go:77-84); `Duration` is the
`int64` nanosecond count. -/
structure ConnectionHistory where
  ip : String
  requestId : String
  activity : String
  timestamp : GoTime
  connectionType : String
  duration : Int
  deriving DecidableEq, Repr

/-- The values that can appear in the assembled `map[string]interface{}`:
strings, `int64`s from `NanoToMilli`, and the history list. -/
inductive JVal
  | jstr (s : String)
  | jint (n : Int)
  | jhist (hs : List ConnectionHistory)
  deriving DecidableEq, Repr

/-- Type `ConnectionStatus` (connection_status.go:15-26); `Duration` is the
`int64` nanosecond count, `Metadata` the `map[string]string` as an
association list. -/
structure ConnectionStatus where
  channelName : String
  status : String
  connectedAt : GoTime
  disconnectedAt : GoTime
  connectionType : String
  duration : Int
  lastPingedAt : GoTime
  identifier : String
  metadata : List (String × String)
  histories : List ConnectionHistory
  deriving DecidableEq, Repr

/-- The keys `MarshalJSON` may insert besides the flattened metadata. -/
def statusReservedKeys : List String :=
  ["channel_name", "status", "connected_at", "disconnected_at",
    "connection_type", "duration", "last_pinged_at", "device_id",
    "connection_history"]

/-- Method `ConnectionStatus.MarshalJSON` (connection_status.go:28-75): the
assembled map, one conditional insertion per statement, in statement
order; metadata entries are flattened at top level by the range loop. -/
def connectionStatusMarshal (h : ConnectionStatus) : List (String × JVal) :=
  let j : List (String × JVal) := []
  let j := if 0 < h.channelName.length then mput "channel_name" (JVal.jstr h.channelName) j else j
  let j := if 0 < h.status.length then mput "status" (JVal.jstr h.status) j else j
  let j := if h.connectedAt.isZero = false then
    mput "connected_at" (JVal.jint (NanoToMilli h.connectedAt.nano)) j else j
  let j := if h.disconnectedAt.isZero = false then
    mput "disconnected_at" (JVal.jint (NanoToMilli h.disconnectedAt.nano)) j else j
  let j := if 0 < h.connectionType.length then
    mput "connection_type" (JVal.jstr h.connectionType) j else j
  let j := if 0 < h.duration then mput "duration" (JVal.jint (NanoToMilli h.duration)) j else j
  let j := if h.lastPingedAt.isZero = false then
    mput "last_pinged_at" (JVal.jint (NanoToMilli h.lastPingedAt.nano)) j else j
  let j := if 0 < h.identifier.length then mput "device_id" (JVal.jstr h.identifier) j else j
  let j := if 0 < h.metadata.length then
    h.metadata.foldl (fun acc kv => mput kv.1 (JVal.jstr kv.2) acc) j else j
  let j := if 0 < h.histories.length then
    mput "connection_history" (JVal.jhist h.histories) j else j
  j

/-- Sample status for the C9 witness: online, no disconnect time, no
connection type, no history, one metadata entry. -/
def c9Sample : ConnectionStatus :=
  { channelName := "ch", status := "online"
    connectedAt := ⟨1500000000123456789, false⟩
    disconnectedAt := ⟨0, true⟩
    connectionType := ""
    duration := 5000000
    lastPingedAt := ⟨0, true⟩
    identifier := "dev-1"
    metadata := [("color", "red")]
    histories := [] }

/-! ## ConnectionHistory.UnmarshalJSON (connection_status.go:115-149, C10)

The method unmarshals into `map[string]interface{}` and then reads six
recognized keys with unchecked type assertions (`v.(string)`,
`v.(float64)`).  We embed the decoded JSON value; Go decodes every JSON
number into `float64`, which the code converts with `int64(...)` — the
model carries an integral representative for the number, which is all the
panic/error behaviour depends on. -/

/-- A decoded JSON value as Go's `encoding/json` produces it into
`interface{}`. -/
inductive GoJSON
  | jnull
  | jbool (b : Bool)
  | jnum (n : Int)
  | jstr (s : String)
  | jarr (xs : List GoJSON)
  | jobj (fields : List (String × GoJSON))

def GoJSON.isObj : GoJSON → Bool
  | .jobj _ => true
  | _ => false

/-- Result of calling `UnmarshalJSON`: a normal return filling the record,
a returned error value, or a runtime panic (failed type assertion). -/
inductive UnmarshalResult
  | ok (h : ConnectionHistory)
  | err
  | panicked
  deriving DecidableEq, Repr

/-- Lookup in the decoded object: `encoding/json` builds the map by
inserting fields in order, later duplicates overwriting earlier ones. -/
def objFind (k : String) (fields : List (String × GoJSON)) : Option GoJSON :=
  fields.foldl (fun acc kv => if kv.1 = k then some kv.2 else acc) none

/-- The zero `ConnectionHistory` the decoder starts from. -/
def emptyConnectionHistory : ConnectionHistory :=
  { ip := "", requestId := "", activity := "", timestamp := ⟨0, true⟩
    connectionType := "", duration := 0 }

/-- Modelled from the spec: `MilliSecToSec` lives in the utils package,
which is not under src/ — milliseconds to whole seconds, truncating like
Go integer division. -/
def MilliSecToSec (milli : Int) : Int :=
  Int.tdiv milli 1000

/-- Modelled from the spec: `MilliSecToNano` lives in the utils package,
which is not under src/ — the sub-second millisecond remainder as
nanoseconds. -/
def MilliSecToNano (milli : Int) : Int :=
  Int.tmod milli 1000 * 1000000

/-- The call `time.Unix(sec, nsec)`: a non-zero time with the given Unix reading
(the remote coincidence with Go's zero time value is not modelled). -/
def timeUnix (sec nsec : Int) : GoTime :=
  ⟨sec * 1000000000 + nsec, false⟩

/-- One `if v, found := j[key]; found { set(h, v.(string)) }` statement:
absent key leaves the record alone; a present string sets the field; a
present value of any other decoded type panics at the type assertion. -/
def setStrField (fields : List (String × GoJSON)) (key : String)
    (set : ConnectionHistory → String → ConnectionHistory)
    (h : ConnectionHistory) : PanicOr ConnectionHistory :=
  match objFind key fields with
  | none => .value h
  | some (.jstr s) => .value (set h s)
  | some _ => .panicked "interface conversion"

/-- The `timestamp` statement (connection_status.go:138-141):
`milli := int64(ts.(float64))`, then
`time.Unix(MilliSecToSec(milli), MilliSecToNano(milli))`. -/
def setTimestampField (fields : List (String × GoJSON))
    (h : ConnectionHistory) : PanicOr ConnectionHistory :=
  match objFind "timestamp" fields with
  | none => .value h
  | some (.jnum n) =>
      .value { h with timestamp := timeUnix (MilliSecToSec n) (MilliSecToNano n) }
  | some _ => .panicked "interface conversion"

/-- The `duration` statement (connection_status.go:143-146):
`time.Duration(int64(dur.(float64))) * time.Millisecond`. -/
def setDurationField (fields : List (String × GoJSON))
    (h : ConnectionHistory) : PanicOr ConnectionHistory :=
  match objFind "duration" fields with
  | none => .value h
  | some (.jnum n) => .value { h with duration := n * 1000000 }
  | some _ => .panicked "interface conversion"

/-- Sequencing of Go statements: a panic aborts the rest of the method. -/
def pbind {α β : Type} (x : PanicOr α) (f : α → PanicOr β) : PanicOr β :=
  match x with
  | .panicked r => .panicked r
  | .value v => f v

/-- The body of `UnmarshalJSON` after a successful decode into an object:
the six recognized keys are read in statement order (connection_status.go:
122-148). -/
def connectionHistoryUnmarshalObj (fields : List (String × GoJSON)) :
    PanicOr ConnectionHistory :=
  pbind (setStrField fields "ip" (fun h s => { h with ip := s })
      emptyConnectionHistory) (fun h =>
    pbind (setStrField fields "request_id" (fun h s => { h with requestId := s }) h)
      (fun h =>
      pbind (setStrField fields "connection_type"
          (fun h s => { h with connectionType := s }) h) (fun h =>
        pbind (setStrField fields "activity" (fun h s => { h with activity := s }) h)
          (fun h =>
          pbind (setTimestampField fields h) (fun h =>
            setDurationField fields h)))))

/-- The bytes handed to `UnmarshalJSON`: either not valid JSON, or the
decoded top-level value. -/
inductive JSONInput
  | invalidBytes
  | parsed (v : GoJSON)

/-- Method `ConnectionHistory.UnmarshalJSON` (connection_status.go:115-149):
invalid bytes make `json.Unmarshal` fail and the error is returned (lines
117-120); a valid non-object value also fails the decode into
`map[string]interface{}` and is returned as an error; a decoded object is
processed field by field, where a failed type assertion panics. -/
def connectionHistoryUnmarshal (input : JSONInput) : UnmarshalResult :=
  match input with
  | .invalidBytes => .err
  | .parsed v =>
      match v with
      | .jobj fields =>
          match connectionHistoryUnmarshalObj fields with
          | .panicked _ => .panicked
          | .value h => .ok h
      | _ => .err

/-! ## Theorems -/

theorem mfind_mput_self {β : Type} (k : String) (v : β) (l : List (String × β)) :
    mfind k (mput k v l) = some v := by
  simp [mfind, mput, List.find?]

theorem mfind_mdelete_self {β : Type} (k : String) (l : List (String × β)) :
    mfind k (mdelete k l) = none := by
  simp only [mfind, mdelete, Option.map_eq_none', List.find?_eq_none, List.mem_filter,
    decide_eq_true_eq]
  intro p hp
  simpa using hp.2

theorem Close_idem (st : CloseState) : Close (Close st) = Close st := by
  unfold Close
  by_cases h : st.onceDone <;> simp [h]

theorem Close_iterate_eq (k : Nat) (st : CloseState) (hk : 1 ≤ k) :
    Close^[k] st = Close st := by
  obtain ⟨n, rfl⟩ : ∃ n, k = n + 1 := ⟨k - 1, by omega⟩
  clear hk
  induction n with
  | zero => rfl
  | succ m ih =>
      rw [Function.iterate_succ_apply', ih, Close_idem]

/-- Claim C3: `close()` on a WebSocketConnection is idempotent: for every
k ≥ 1, calling it k times from the initial state performs the body's side
effects exactly once — the closed flag is set, the writer inbox and the
reader-stop channel are closed, the close signal is delivered exactly once,
and the shard unregistration runs exactly once. -/
theorem close_idempotent (k : Nat) (hk : 1 ≤ k) :
    Close^[k] CloseState.initial = Close CloseState.initial ∧
    (Close^[k] CloseState.initial).closed = true ∧
    (Close^[k] CloseState.initial).wchClosed = true ∧
    (Close^[k] CloseState.initial).rchClosed = true ∧
    (Close^[k] CloseState.initial).closewchSends = 1 ∧
    (Close^[k] CloseState.initial).unregisterCalls = 1 := by
  have h := Close_iterate_eq k CloseState.initial hk
  rw [h]
  refine ⟨rfl, ?_, ?_, ?_, ?_, ?_⟩ <;> rfl

/-- Witness for C3 at k = 3. -/
theorem close_idempotent_witness :
    Close^[3] CloseState.initial = Close CloseState.initial ∧
    (Close^[3] CloseState.initial).closed = true ∧
    (Close^[3] CloseState.initial).wchClosed = true ∧
    (Close^[3] CloseState.initial).rchClosed = true ∧
    (Close^[3] CloseState.initial).closewchSends = 1 ∧
    (Close^[3] CloseState.initial).unregisterCalls = 1 :=
  close_idempotent 3 (by decide)

/-- Counterexample to claim C1 as stated: in the interleaving where the
writer's `msgChans.put` runs after the caller's deferred
`msgChans.delete`, the call has returned the response-timeout error but
the pending table still holds an entry for the message id (here `"m1"`
bound to channel 7), even though it was empty before the call. -/
theorem send_sync_timeout_race_counterexample :
    [SyncAction.callerTimeout, SyncAction.callerDelete, SyncAction.writerPut] ∈
        interleavings syncCallerProgram syncWriterProgram ∧
    (syncRun "m1" 7 SyncWaitState.initial
        [SyncAction.callerTimeout, SyncAction.callerDelete, SyncAction.writerPut]).callerErr
      = some GoError.responseTimedOut ∧
    (syncRun "m1" 7 SyncWaitState.initial
        [SyncAction.callerTimeout, SyncAction.callerDelete, SyncAction.writerPut]).pending
      = [("m1", 7)] := by
  refine ⟨?_, rfl, ?_⟩
  · simp [interleavings, syncCallerProgram, syncWriterProgram]
  · simp [syncRun, syncStep, SyncWaitState.initial, mput, mdelete]

/-- Claim C1, amended: for a sync request accepted and successfully written
by the writer with no Response within the deadline, the call returns the
response-timeout error in every interleaving; and in every interleaving in
which the writer's insertion into the pending table happens before the
caller's timeout-path removal, the pending table holds no entry for the
message id after the call — it is empty again if it was empty before. -/
theorem send_sync_timeout_pending_empty (msgId : String) (respCh : Nat)
    (tr : List SyncAction)
    (htr : tr ∈ interleavings syncCallerProgram syncWriterProgram)
    (hord : idxOfA tr .writerPut < idxOfA tr .callerDelete) :
    (syncRun msgId respCh SyncWaitState.initial tr).callerErr
      = some GoError.responseTimedOut ∧
    mfind msgId (syncRun msgId respCh SyncWaitState.initial tr).pending = none ∧
    (syncRun msgId respCh SyncWaitState.initial tr).pending = [] := by
  have htr3 : tr = [SyncAction.callerTimeout, SyncAction.callerDelete, SyncAction.writerPut] ∨
      tr = [SyncAction.callerTimeout, SyncAction.writerPut, SyncAction.callerDelete] ∨
      tr = [SyncAction.writerPut, SyncAction.callerTimeout, SyncAction.callerDelete] := by
    simpa [interleavings, syncCallerProgram, syncWriterProgram] using htr
  rcases htr3 with rfl | rfl | rfl
  · simp [idxOfA] at hord
  · refine ⟨rfl, ?_, ?_⟩ <;>
      simp [syncRun, syncStep, SyncWaitState.initial, mput, mdelete, mfind]
  · refine ⟨rfl, ?_, ?_⟩ <;>
      simp [syncRun, syncStep, SyncWaitState.initial, mput, mdelete, mfind]

/-- Witness for the amended C1 at the interleaving put–timeout–delete. -/
theorem send_sync_timeout_pending_empty_witness :
    ([SyncAction.writerPut, SyncAction.callerTimeout, SyncAction.callerDelete] ∈
        interleavings syncCallerProgram syncWriterProgram ∧
      idxOfA [SyncAction.writerPut, SyncAction.callerTimeout, SyncAction.callerDelete]
          SyncAction.writerPut <
        idxOfA [SyncAction.writerPut, SyncAction.callerTimeout, SyncAction.callerDelete]
          SyncAction.callerDelete) ∧
    ((syncRun "m1" 7 SyncWaitState.initial
        [SyncAction.writerPut, SyncAction.callerTimeout, SyncAction.callerDelete]).callerErr
      = some GoError.responseTimedOut ∧
    mfind "m1" (syncRun "m1" 7 SyncWaitState.initial
        [SyncAction.writerPut, SyncAction.callerTimeout, SyncAction.callerDelete]).pending
      = none ∧
    (syncRun "m1" 7 SyncWaitState.initial
        [SyncAction.writerPut, SyncAction.callerTimeout, SyncAction.callerDelete]).pending
      = []) :=
  ⟨⟨by simp [interleavings, syncCallerProgram, syncWriterProgram], by decide⟩,
    send_sync_timeout_pending_empty "m1" 7 _
      (by simp [interleavings, syncCallerProgram, syncWriterProgram]) (by decide)⟩

theorem slotDeliveries_slotPush_self (ch : Nat) (r : MessageResp)
    (slots : List (Nat × List MessageResp)) :
    slotDeliveries ch (slotPush ch r slots) = slotDeliveries ch slots ++ [r] := by
  induction slots with
  | nil => simp [slotDeliveries, slotPush]
  | cons p rest ih =>
      obtain ⟨c, buf⟩ := p
      by_cases hc : c = ch
      · subst hc
        simp [slotDeliveries, slotPush, List.find?]
      · simp only [slotPush, if_neg hc]
        simpa [slotDeliveries, List.find?, hc] using ih

/-- Claim C2: on a Response frame, if the pending table holds the frame's
id, the reader removes the entry, delivers the message to that channel,
and calls the handler with `(conn, frame, nil)` — with the removal ordered
strictly before the delivery in the branch's effect sequence; if the table
has no entry, the handler is called with the unexpected-response error,
nothing is delivered, and the connection is not closed.  After a matched
delivery the entry is gone, so re-processing the same Response delivers to
no one: a Response reaches at most one caller. -/
theorem reader_response_matching (message : Message) (st : ReaderState) :
    (∀ ch, mfind message.messageId st.pending = some ch →
      (rListenResponse message st).1.pending = mdelete message.messageId st.pending ∧
      mfind message.messageId (rListenResponse message st).1.pending = none ∧
      slotDeliveries ch (rListenResponse message st).1.slots
        = slotDeliveries ch st.slots ++ [⟨some message, none⟩] ∧
      (rListenResponse message st).1.handlerCalls
        = st.handlerCalls ++ [(some message, none)] ∧
      (rListenResponse message st).2
        = [.pendingDelete message.messageId,
            .slotDeliver ch ⟨some message, none⟩,
            .handlerCall (some message) none] ∧
      idxOfA (rListenResponse message st).2 (.pendingDelete message.messageId)
        < idxOfA (rListenResponse message st).2 (.slotDeliver ch ⟨some message, none⟩) ∧
      (rListenResponse message st).1.closeCalled = st.closeCalled ∧
      ((rListenResponse message ((rListenResponse message st).1)).1).slots
        = (rListenResponse message st).1.slots) ∧
    (mfind message.messageId st.pending = none →
      (rListenResponse message st).1.handlerCalls
        = st.handlerCalls ++ [(some message, some .unexpectedResponse)] ∧
      (rListenResponse message st).1.pending = st.pending ∧
      (rListenResponse message st).1.slots = st.slots ∧
      (rListenResponse message st).1.closeCalled = st.closeCalled) := by
  constructor
  · intro ch hch
    have hdel := mfind_mdelete_self message.messageId st.pending
    refine ⟨?_, ?_, ?_, ?_, ?_, ?_, ?_, ?_⟩ <;>
      simp [rListenResponse, hch, hdel, slotDeliveries_slotPush_self, idxOfA]
  · intro hnone
    refine ⟨?_, ?_, ?_, ?_⟩ <;> simp [rListenResponse, hnone]

/-- Witness for C2 at a concrete Response frame and pending table. -/
theorem reader_response_matching_witness :
    (mfind "r1" (ReaderState.mk [("r1", 4)] [] [] false).pending = some 4 ∧
      ((rListenResponse ⟨ResponseMessage, "r1", [1]⟩
          (ReaderState.mk [("r1", 4)] [] [] false)).1.pending
        = mdelete "r1" [("r1", 4)] ∧
      mfind "r1" (rListenResponse ⟨ResponseMessage, "r1", [1]⟩
          (ReaderState.mk [("r1", 4)] [] [] false)).1.pending = none ∧
      slotDeliveries 4 (rListenResponse ⟨ResponseMessage, "r1", [1]⟩
          (ReaderState.mk [("r1", 4)] [] [] false)).1.slots
        = slotDeliveries 4 [] ++ [⟨some ⟨ResponseMessage, "r1", [1]⟩, none⟩])) ∧
    (mfind "r1" (ReaderState.mk [] [] [] false).pending = none ∧
      (rListenResponse ⟨ResponseMessage, "r1", [1]⟩
          (ReaderState.mk [] [] [] false)).1.handlerCalls
        = [] ++ [(some ⟨ResponseMessage, "r1", [1]⟩, some .unexpectedResponse)]) := by
  constructor
  · refine ⟨by decide, ?_⟩
    have h := (reader_response_matching ⟨ResponseMessage, "r1", [1]⟩
      (ReaderState.mk [("r1", 4)] [] [] false)).1 4 (by decide)
    exact ⟨h.1, h.2.1, h.2.2.1⟩
  · refine ⟨by decide, ?_⟩
    have h := (reader_response_matching ⟨ResponseMessage, "r1", [1]⟩
      (ReaderState.mk [] [] [] false)).2 (by decide)
    exact h.1

/-- Claim C4: a send (`send_async`, `send_response` or `send_sync` all go
through `sendMessage`) attempted while the writer inbox is closed — the
connection closed before or concurrently with the enqueue — panics inside
the body, and the deferred recover converts that panic into a normal
return carrying the connection-closed error: the caller observes an error
value, never a crash. -/
theorem send_on_closed_returns_connection_closed (messageType : Nat)
    (payload : List Nat) (nowNano : Nat) (env : SendEnv)
    (hclosed : env.wchClosedAtEnqueue = true) :
    sendMessage messageType payload nowNano env = ([], some .connectionClosed) ∧
    sendMessageBody messageType payload nowNano env
      = .panicked "send on closed channel" := by
  constructor
  · simp [sendMessage, sendMessageBody, hclosed]
  · simp [sendMessageBody, hclosed]

/-- Witness for C4: an async send on a closed inbox. -/
theorem send_on_closed_returns_connection_closed_witness :
    (SendEnv.mk true false none).wchClosedAtEnqueue = true ∧
    (sendMessage AsyncRequestMessage [1, 2] 1000 (SendEnv.mk true false none)
        = ([], some .connectionClosed) ∧
      sendMessageBody AsyncRequestMessage [1, 2] 1000 (SendEnv.mk true false none)
        = .panicked "send on closed channel") :=
  ⟨rfl, send_on_closed_returns_connection_closed AsyncRequestMessage [1, 2] 1000
    (SendEnv.mk true false none) rfl⟩

/-- Claim C5: on a successful transmit of a SyncRequest the writer inserts
`(message id, result slot)` into the pending table and completes nothing;
on a successful transmit of any other frame it completes the caller's slot
with an empty success; on a write error it delivers the error to the
caller's slot, leaves the pending table alone, and triggers `close()` iff
the error is transport-level. -/
theorem writer_step_spec (req : MessageReq) (writeErr : Option GoError)
    (st : WriterState) :
    (writeErr = none → req.msg.messageType = SyncRequestMessage →
      (wListenStep req writeErr st).pending = mput req.msg.messageId req.respCh st.pending ∧
      mfind req.msg.messageId (wListenStep req writeErr st).pending = some req.respCh ∧
      (wListenStep req writeErr st).slots = st.slots ∧
      (wListenStep req writeErr st).closeCalled = st.closeCalled) ∧
    (writeErr = none → req.msg.messageType ≠ SyncRequestMessage →
      slotDeliveries req.respCh (wListenStep req writeErr st).slots
        = slotDeliveries req.respCh st.slots ++ [⟨none, none⟩] ∧
      (wListenStep req writeErr st).pending = st.pending ∧
      (wListenStep req writeErr st).closeCalled = st.closeCalled) ∧
    (∀ e, writeErr = some e →
      slotDeliveries req.respCh (wListenStep req writeErr st).slots
        = slotDeliveries req.respCh st.slots ++ [⟨none, some e⟩] ∧
      (wListenStep req writeErr st).pending = st.pending ∧
      (wListenStep req writeErr st).closeCalled
        = (st.closeCalled || e.isWebsocketError)) := by
  refine ⟨?_, ?_, ?_⟩
  · intro hw hsync
    subst hw
    refine ⟨?_, ?_, ?_, ?_⟩ <;> simp [wListenStep, hsync, mfind_mput_self]
  · intro hw hsync
    subst hw
    refine ⟨?_, ?_, ?_⟩ <;> simp [wListenStep, hsync, slotDeliveries_slotPush_self]
  · intro e hw
    subst hw
    refine ⟨?_, ?_, ?_⟩ <;> simp [wListenStep, slotDeliveries_slotPush_self]

/-- Witness for C5: a successfully written SyncRequest, a successfully
written async request, and a failed transport write. -/
theorem writer_step_spec_witness :
    ((none : Option GoError) = none ∧
      (MessageReq.mk ⟨SyncRequestMessage, "a1", [1]⟩ 3).msg.messageType
        = SyncRequestMessage ∧
      mfind "a1" (wListenStep (MessageReq.mk ⟨SyncRequestMessage, "a1", [1]⟩ 3) none
          (WriterState.mk [] [] false)).pending = some 3) ∧
    ((MessageReq.mk ⟨AsyncRequestMessage, "a2", [1]⟩ 4).msg.messageType
        ≠ SyncRequestMessage ∧
      slotDeliveries 4 (wListenStep (MessageReq.mk ⟨AsyncRequestMessage, "a2", [1]⟩ 4)
          none (WriterState.mk [] [] false)).slots = [⟨none, none⟩]) ∧
    ((wListenStep (MessageReq.mk ⟨AsyncRequestMessage, "a3", [1]⟩ 5)
        (some (.websocketError "broken pipe")) (WriterState.mk [] [] false)).closeCalled
      = true) := by
  refine ⟨⟨rfl, rfl, ?_⟩, ⟨by decide, ?_⟩, ?_⟩
  · exact ((writer_step_spec (MessageReq.mk ⟨SyncRequestMessage, "a1", [1]⟩ 3) none
      (WriterState.mk [] [] false)).1 rfl rfl).2.1
  · have h := ((writer_step_spec (MessageReq.mk ⟨AsyncRequestMessage, "a2", [1]⟩ 4) none
      (WriterState.mk [] [] false)).2.1 rfl (by decide)).1
    simpa [slotDeliveries] using h
  · have h := ((writer_step_spec (MessageReq.mk ⟨AsyncRequestMessage, "a3", [1]⟩ 5)
      (some (.websocketError "broken pipe")) (WriterState.mk [] [] false)).2.2
      (.websocketError "broken pipe") rfl).2.2
    simpa using h

/-- Counterexample to claim C7 as stated: the error returned by
`send_async` does depend on the outcome of the subsequent transport
write — the same call returns nil when the write succeeds and returns the
write error when the write fails — and when the writer never completes the
slot the call returns a timeout error instead of returning at inbox
acceptance. -/
theorem send_async_not_fire_and_forget :
    sendAsyncOutcome [1] 1000 (some (.websocketError "broken pipe"))
      = some (.websocketError "broken pipe") ∧
    sendAsyncOutcome [1] 1000 none = none ∧
    (sendMessage AsyncRequestMessage [1] 1000 (SendEnv.mk false false none)).2
      = some .responseTimedOut := by
  refine ⟨rfl, rfl, rfl⟩

/-- Claim C7, amended: `send_async` does not return at inbox acceptance;
after enqueuing it waits on the result slot, which the writer completes
only after attempting the transport write, and the error returned to the
caller is exactly the write's outcome (nil on success, the write error on
failure).  No peer Response frame enters this path. -/
theorem send_async_returns_write_outcome (payload : List Nat) (nowNano : Nat)
    (writeErr : Option GoError) :
    sendAsyncOutcome payload nowNano writeErr = writeErr := by
  match writeErr with
  | none =>
      simp [sendAsyncOutcome, writerCompletion, wListenStep, sendMessage,
        sendMessageBody, slotDeliveries, slotPush, List.find?,
        AsyncRequestMessage, SyncRequestMessage]
  | some e =>
      simp [sendAsyncOutcome, writerCompletion, wListenStep, sendMessage,
        sendMessageBody, slotDeliveries, slotPush, List.find?,
        AsyncRequestMessage, SyncRequestMessage]

/-- Claim C8 evaluated at a failing input: two distinct sync sends that
both read the clock value 1700000000000000000 allocate identical message
ids (both get `"17979cfe362a0000"`), although the claim requires the ids
of overlapping sync requests to be distinct; the allocation depends on
nothing but the clock reading. -/
theorem msgid_allocation_collides :
    allocatedMsgId 1700000000000000000 = "17979cfe362a0000" ∧
    (sendMessageBody SyncRequestMessage [1] 1700000000000000000
        (SendEnv.mk false false none)
      = sendMessageBody SyncRequestMessage [1] 1700000000000000000
        (SendEnv.mk false false none) ∧
    allocatedMsgId 1700000000000000000 = allocatedMsgId 1700000000000000000) ∧
    (∀ _payload1 _payload2 : List Nat, ∀ t : Nat,
      allocatedMsgId t = allocatedMsgId t) := by
  refine ⟨?_, ⟨rfl, rfl⟩, fun _ _ _ => rfl⟩
  rfl

theorem mfind_mdelete_ne {β : Type} (k k' : String) (l : List (String × β))
    (h : k' ≠ k) : mfind k' (mdelete k l) = mfind k' l := by
  simp only [mfind, mdelete]
  induction l with
  | nil => rfl
  | cons p rest ih =>
      by_cases hpk : p.1 = k
      · have hpk' : ¬ p.1 = k' := by rw [hpk]; exact fun hc => h hc.symm
        rw [List.filter_cons_of_neg (by simp [hpk]),
          List.find?_cons_of_neg rest (by simp [hpk']), ih]
      · by_cases hpk' : p.1 = k'
        · rw [List.filter_cons_of_pos (by simp [hpk]),
            List.find?_cons_of_pos (rest.filter (fun p => p.1 ≠ k)) (by simp [hpk']),
            List.find?_cons_of_pos rest (by simp [hpk'])]
        · rw [List.filter_cons_of_pos (by simp [hpk]),
            List.find?_cons_of_neg (rest.filter (fun p => p.1 ≠ k)) (by simp [hpk']),
            List.find?_cons_of_neg rest (by simp [hpk']), ih]

theorem mfind_mput_ne {β : Type} (k k' : String) (v : β) (l : List (String × β))
    (h : k' ≠ k) : mfind k' (mput k v l) = mfind k' l := by
  have hstep : mfind k' (mput k v l) = mfind k' (mdelete k l) := by
    simp only [mput, mfind]
    rw [List.find?_cons_of_neg (mdelete k l) (by simp; exact fun hc => h hc.symm)]
  rw [hstep]
  exact mfind_mdelete_ne k k' l h

theorem getD_set_self {α : Type} (l : List α) (i : Nat) (a d : α)
    (h : i < l.length) : (l.set i a).getD i d = a := by
  induction l generalizing i with
  | nil => simp at h
  | cons x xs ih =>
      cases i with
      | zero => rfl
      | succ n =>
          have hn : n < xs.length := by simpa using h
          simpa [List.set, List.getD] using ih n hn

theorem getD_set_ne {α : Type} (l : List α) (i j : Nat) (a d : α)
    (h : i ≠ j) : (l.set i a).getD j d = l.getD j d := by
  induction l generalizing i j with
  | nil => simp [List.set]
  | cons x xs ih =>
      cases i with
      | zero =>
          cases j with
          | zero => exact absurd rfl h
          | succ m => simp [List.set, List.getD]
      | succ n =>
          cases j with
          | zero => simp [List.set, List.getD]
          | succ m =>
              have : n ≠ m := fun hc => h (by rw [hc])
              simpa [List.set, List.getD] using ih n m this

/-- Claim C6: `newConnection` and `findConnection` select the same shard,
namely the Murmur3-32 hash of the identifier modulo the shard count; in a
state where every entry sits in the shard its hash selects, registering a
connection keeps it so, `find` after a successful registration locates
exactly that connection, and the registered identifier is reachable
through exactly one shard — the hash-selected one. -/
theorem manager_shard_routing (st : ManagerState) (id : String) (conn : Nat)
    (hn : 0 < st.shards.length) (hwp : wellPlaced st) :
    shardIdxNewConnection id st.shards.length
      = shardIdxFindConnection id st.shards.length ∧
    shardIdxNewConnection id st.shards.length
      = murmur3_32 (strBytes id) % st.shards.length ∧
    managerFindConnection (managerNewConnection st id conn) id = some conn ∧
    wellPlaced (managerNewConnection st id conn) ∧
    (∀ i, i < st.shards.length →
      ((shardFind id ((managerNewConnection st id conn).shards.getD i [])).isSome
          = true ↔
        i = shardIdxNewConnection id st.shards.length)) := by
  have hidx : shardIdxNewConnection id st.shards.length < st.shards.length :=
    Nat.mod_lt _ hn
  have hlen : (managerNewConnection st id conn).shards.length = st.shards.length := by
    simp [managerNewConnection]
  refine ⟨rfl, rfl, ?_, ?_, ?_⟩
  · show shardFind id ((managerNewConnection st id conn).shards.getD
        (shardIdxFindConnection id (managerNewConnection st id conn).shards.length) [])
      = some conn
    rw [hlen]
    have : shardIdxFindConnection id st.shards.length
        = shardIdxNewConnection id st.shards.length := rfl
    rw [this, managerNewConnection]
    simp only
    rw [getD_set_self _ _ _ _ hidx]
    exact mfind_mput_self id conn _
  · intro i hi id' hfound
    rw [hlen] at hi ⊢
    by_cases hcase : i = shardIdxNewConnection id st.shards.length
    · subst hcase
      rw [managerNewConnection] at hfound
      simp only at hfound
      rw [getD_set_self _ _ _ _ hidx] at hfound
      by_cases hid : id' = id
      · subst hid; rfl
      · rw [shardRegister, shardFind, mfind_mput_ne id id' conn _ hid] at hfound
        exact hwp _ hidx id' hfound
    · rw [managerNewConnection] at hfound
      simp only at hfound
      rw [getD_set_ne _ _ _ _ _ (fun hc => hcase hc.symm)] at hfound
      exact hwp i hi id' hfound
  · intro i hi
    constructor
    · intro hfound
      by_cases hcase : i = shardIdxNewConnection id st.shards.length
      · exact hcase
      · rw [managerNewConnection] at hfound
        simp only at hfound
        rw [getD_set_ne _ _ _ _ _ (fun hc => hcase hc.symm)] at hfound
        exact hwp i hi id hfound
    · intro hcase
      subst hcase
      rw [managerNewConnection]
      simp only
      rw [getD_set_self _ _ _ _ hidx]
      rw [shardRegister, shardFind, mfind_mput_self]
      rfl

/-- Witness for C6: four empty shards, identifier `"dev-1"` (Murmur3-32
2506193578, shard 2). -/
theorem manager_shard_routing_witness :
    (0 < (ManagerState.mk [[], [], [], []]).shards.length ∧
      wellPlaced (ManagerState.mk [[], [], [], []])) ∧
    (shardIdxNewConnection "dev-1" 4 = shardIdxFindConnection "dev-1" 4 ∧
      shardIdxNewConnection "dev-1" 4 = murmur3_32 (strBytes "dev-1") % 4 ∧
      managerFindConnection
        (managerNewConnection (ManagerState.mk [[], [], [], []]) "dev-1" 1) "dev-1"
        = some 1 ∧
      wellPlaced (managerNewConnection (ManagerState.mk [[], [], [], []]) "dev-1" 1) ∧
      (∀ i, i < 4 →
        ((shardFind "dev-1"
            ((managerNewConnection (ManagerState.mk [[], [], [], []]) "dev-1" 1).shards.getD
              i [])).isSome = true ↔
          i = shardIdxNewConnection "dev-1" 4))) := by
  have hwp : wellPlaced (ManagerState.mk [[], [], [], []]) := by
    intro i hi id hfound
    have hi4 : i < 4 := by simpa using hi
    interval_cases i <;> simp [shardFind, mfind, List.getD] at hfound
  exact ⟨⟨by decide, hwp⟩,
    manager_shard_routing (ManagerState.mk [[], [], [], []]) "dev-1" 1 (by decide) hwp⟩

theorem mfind_ite_mput_ne {β : Type} (k k' : String) (v : β) (c : Prop)
    [Decidable c] (j : List (String × β)) (h : k ≠ k') :
    mfind k (if c then mput k' v j else j) = mfind k j := by
  split
  · exact mfind_mput_ne k' k v j h
  · rfl

theorem mfind_ite_mput_self {β : Type} (k : String) (v : β) (c : Prop)
    [Decidable c] (j : List (String × β)) :
    mfind k (if c then mput k v j else j) = if c then some v else mfind k j := by
  split
  · exact mfind_mput_self k v j
  · rfl

theorem mfind_metaFold_ne (k : String) (meta : List (String × String))
    (acc : List (String × JVal)) (h : ∀ kv ∈ meta, kv.1 ≠ k) :
    mfind k (meta.foldl (fun acc kv => mput kv.1 (JVal.jstr kv.2) acc) acc)
      = mfind k acc := by
  induction meta generalizing acc with
  | nil => rfl
  | cons kv rest ih =>
      rw [List.foldl_cons,
        ih _ (fun kv' h' => h kv' (List.mem_cons_of_mem _ h')),
        mfind_mput_ne kv.1 k _ acc (Ne.symm (h kv (List.mem_cons_self _ _)))]

theorem mfind_ite_metaFold_ne (k : String) (c : Prop) [Decidable c]
    (meta : List (String × String)) (j : List (String × JVal))
    (h : ∀ kv ∈ meta, kv.1 ≠ k) :
    mfind k (if c then meta.foldl (fun acc kv => mput kv.1 (JVal.jstr kv.2) acc) j else j)
      = mfind k j := by
  split
  · exact mfind_metaFold_ne k meta j h
  · rfl

theorem mfind_metaFold_mem (k v : String) (meta : List (String × String))
    (acc : List (String × JVal)) (hmem : (k, v) ∈ meta)
    (hnodup : (meta.map Prod.fst).Nodup) :
    mfind k (meta.foldl (fun acc kv => mput kv.1 (JVal.jstr kv.2) acc) acc)
      = some (JVal.jstr v) := by
  induction meta generalizing acc with
  | nil => cases hmem
  | cons kv rest ih =>
      obtain ⟨k1, v1⟩ := kv
      rw [List.foldl_cons]
      have hnd := List.nodup_cons.mp hnodup
      rcases List.mem_cons.mp hmem with heq | hmem'
      · injection heq with h1 h2
        subst h1
        subst h2
        have hrest : ∀ kv' ∈ rest, kv'.1 ≠ k := by
          intro kv' h' hc
          apply hnd.1
          rw [← hc]
          simpa using List.mem_map_of_mem Prod.fst h'
        rw [mfind_metaFold_ne k rest _ hrest]
        exact mfind_mput_self k (JVal.jstr v) acc
      · exact ih _ hmem' hnd.2

/-- Claim C9: the JSON snapshot of a ConnectionStatus contains each
reserved key iff the corresponding field is non-zero (non-empty string,
non-zero time, positive duration, non-empty history), every emitted
timestamp and duration is the nanosecond value converted to milliseconds,
metadata keys are flattened at top level with their values, and no other
key appears — stated for metadata whose keys are distinct and do not
shadow the reserved keys. -/
theorem connection_status_marshal_spec (h : ConnectionStatus)
    (hmeta : ∀ kv ∈ h.metadata, kv.1 ∉ statusReservedKeys)
    (hnodup : (h.metadata.map Prod.fst).Nodup) :
    (mfind "channel_name" (connectionStatusMarshal h)
      = if 0 < h.channelName.length then some (JVal.jstr h.channelName) else none) ∧
    (mfind "status" (connectionStatusMarshal h)
      = if 0 < h.status.length then some (JVal.jstr h.status) else none) ∧
    (mfind "connected_at" (connectionStatusMarshal h)
      = if h.connectedAt.isZero = false
        then some (JVal.jint (NanoToMilli h.connectedAt.nano)) else none) ∧
    (mfind "disconnected_at" (connectionStatusMarshal h)
      = if h.disconnectedAt.isZero = false
        then some (JVal.jint (NanoToMilli h.disconnectedAt.nano)) else none) ∧
    (mfind "connection_type" (connectionStatusMarshal h)
      = if 0 < h.connectionType.length then some (JVal.jstr h.connectionType) else none) ∧
    (mfind "duration" (connectionStatusMarshal h)
      = if 0 < h.duration then some (JVal.jint (NanoToMilli h.duration)) else none) ∧
    (mfind "last_pinged_at" (connectionStatusMarshal h)
      = if h.lastPingedAt.isZero = false
        then some (JVal.jint (NanoToMilli h.lastPingedAt.nano)) else none) ∧
    (mfind "device_id" (connectionStatusMarshal h)
      = if 0 < h.identifier.length then some (JVal.jstr h.identifier) else none) ∧
    (mfind "connection_history" (connectionStatusMarshal h)
      = if 0 < h.histories.length then some (JVal.jhist h.histories) else none) ∧
    (∀ kv ∈ h.metadata,
      mfind kv.1 (connectionStatusMarshal h) = some (JVal.jstr kv.2)) ∧
    (∀ k, k ∉ statusReservedKeys → (∀ v, (k, v) ∉ h.metadata) →
      mfind k (connectionStatusMarshal h) = none) := by
  have hm : ∀ kr ∈ statusReservedKeys, ∀ kv ∈ h.metadata, kv.1 ≠ kr := by
    intro kr hkr kv hkv hc
    exact hmeta kv hkv (by rw [hc]; exact hkr)
  refine ⟨?_, ?_, ?_, ?_, ?_, ?_, ?_, ?_, ?_, ?_, ?_⟩
  · simp only [connectionStatusMarshal]
    rw [mfind_ite_mput_ne "channel_name" "connection_history" _ _ _ (by decide),
      mfind_ite_metaFold_ne "channel_name" _ _ _ (hm _ (by decide)),
      mfind_ite_mput_ne "channel_name" "device_id" _ _ _ (by decide),
      mfind_ite_mput_ne "channel_name" "last_pinged_at" _ _ _ (by decide),
      mfind_ite_mput_ne "channel_name" "duration" _ _ _ (by decide),
      mfind_ite_mput_ne "channel_name" "connection_type" _ _ _ (by decide),
      mfind_ite_mput_ne "channel_name" "disconnected_at" _ _ _ (by decide),
      mfind_ite_mput_ne "channel_name" "connected_at" _ _ _ (by decide),
      mfind_ite_mput_ne "channel_name" "status" _ _ _ (by decide),
      mfind_ite_mput_self "channel_name" _ _ _]
    rfl
  · simp only [connectionStatusMarshal]
    rw [mfind_ite_mput_ne "status" "connection_history" _ _ _ (by decide),
      mfind_ite_metaFold_ne "status" _ _ _ (hm _ (by decide)),
      mfind_ite_mput_ne "status" "device_id" _ _ _ (by decide),
      mfind_ite_mput_ne "status" "last_pinged_at" _ _ _ (by decide),
      mfind_ite_mput_ne "status" "duration" _ _ _ (by decide),
      mfind_ite_mput_ne "status" "connection_type" _ _ _ (by decide),
      mfind_ite_mput_ne "status" "disconnected_at" _ _ _ (by decide),
      mfind_ite_mput_ne "status" "connected_at" _ _ _ (by decide),
      mfind_ite_mput_self "status" _ _ _,
      mfind_ite_mput_ne "status" "channel_name" _ _ _ (by decide)]
    rfl
  · simp only [connectionStatusMarshal]
    rw [mfind_ite_mput_ne "connected_at" "connection_history" _ _ _ (by decide),
      mfind_ite_metaFold_ne "connected_at" _ _ _ (hm _ (by decide)),
      mfind_ite_mput_ne "connected_at" "device_id" _ _ _ (by decide),
      mfind_ite_mput_ne "connected_at" "last_pinged_at" _ _ _ (by decide),
      mfind_ite_mput_ne "connected_at" "duration" _ _ _ (by decide),
      mfind_ite_mput_ne "connected_at" "connection_type" _ _ _ (by decide),
      mfind_ite_mput_ne "connected_at" "disconnected_at" _ _ _ (by decide),
      mfind_ite_mput_self "connected_at" _ _ _,
      mfind_ite_mput_ne "connected_at" "status" _ _ _ (by decide),
      mfind_ite_mput_ne "connected_at" "channel_name" _ _ _ (by decide)]
    rfl
  · simp only [connectionStatusMarshal]
    rw [mfind_ite_mput_ne "disconnected_at" "connection_history" _ _ _ (by decide),
      mfind_ite_metaFold_ne "disconnected_at" _ _ _ (hm _ (by decide)),
      mfind_ite_mput_ne "disconnected_at" "device_id" _ _ _ (by decide),
      mfind_ite_mput_ne "disconnected_at" "last_pinged_at" _ _ _ (by decide),
      mfind_ite_mput_ne "disconnected_at" "duration" _ _ _ (by decide),
      mfind_ite_mput_ne "disconnected_at" "connection_type" _ _ _ (by decide),
      mfind_ite_mput_self "disconnected_at" _ _ _,
      mfind_ite_mput_ne "disconnected_at" "connected_at" _ _ _ (by decide),
      mfind_ite_mput_ne "disconnected_at" "status" _ _ _ (by decide),
      mfind_ite_mput_ne "disconnected_at" "channel_name" _ _ _ (by decide)]
    rfl
  · simp only [connectionStatusMarshal]
    rw [mfind_ite_mput_ne "connection_type" "connection_history" _ _ _ (by decide),
      mfind_ite_metaFold_ne "connection_type" _ _ _ (hm _ (by decide)),
      mfind_ite_mput_ne "connection_type" "device_id" _ _ _ (by decide),
      mfind_ite_mput_ne "connection_type" "last_pinged_at" _ _ _ (by decide),
      mfind_ite_mput_ne "connection_type" "duration" _ _ _ (by decide),
      mfind_ite_mput_self "connection_type" _ _ _,
      mfind_ite_mput_ne "connection_type" "disconnected_at" _ _ _ (by decide),
      mfind_ite_mput_ne "connection_type" "connected_at" _ _ _ (by decide),
      mfind_ite_mput_ne "connection_type" "status" _ _ _ (by decide),
      mfind_ite_mput_ne "connection_type" "channel_name" _ _ _ (by decide)]
    rfl
  · simp only [connectionStatusMarshal]
    rw [mfind_ite_mput_ne "duration" "connection_history" _ _ _ (by decide),
      mfind_ite_metaFold_ne "duration" _ _ _ (hm _ (by decide)),
      mfind_ite_mput_ne "duration" "device_id" _ _ _ (by decide),
      mfind_ite_mput_ne "duration" "last_pinged_at" _ _ _ (by decide),
      mfind_ite_mput_self "duration" _ _ _,
      mfind_ite_mput_ne "duration" "connection_type" _ _ _ (by decide),
      mfind_ite_mput_ne "duration" "disconnected_at" _ _ _ (by decide),
      mfind_ite_mput_ne "duration" "connected_at" _ _ _ (by decide),
      mfind_ite_mput_ne "duration" "status" _ _ _ (by decide),
      mfind_ite_mput_ne "duration" "channel_name" _ _ _ (by decide)]
    rfl
  · simp only [connectionStatusMarshal]
    rw [mfind_ite_mput_ne "last_pinged_at" "connection_history" _ _ _ (by decide),
      mfind_ite_metaFold_ne "last_pinged_at" _ _ _ (hm _ (by decide)),
      mfind_ite_mput_ne "last_pinged_at" "device_id" _ _ _ (by decide),
      mfind_ite_mput_self "last_pinged_at" _ _ _,
      mfind_ite_mput_ne "last_pinged_at" "duration" _ _ _ (by decide),
      mfind_ite_mput_ne "last_pinged_at" "connection_type" _ _ _ (by decide),
      mfind_ite_mput_ne "last_pinged_at" "disconnected_at" _ _ _ (by decide),
      mfind_ite_mput_ne "last_pinged_at" "connected_at" _ _ _ (by decide),
      mfind_ite_mput_ne "last_pinged_at" "status" _ _ _ (by decide),
      mfind_ite_mput_ne "last_pinged_at" "channel_name" _ _ _ (by decide)]
    rfl
  · simp only [connectionStatusMarshal]
    rw [mfind_ite_mput_ne "device_id" "connection_history" _ _ _ (by decide),
      mfind_ite_metaFold_ne "device_id" _ _ _ (hm _ (by decide)),
      mfind_ite_mput_self "device_id" _ _ _,
      mfind_ite_mput_ne "device_id" "last_pinged_at" _ _ _ (by decide),
      mfind_ite_mput_ne "device_id" "duration" _ _ _ (by decide),
      mfind_ite_mput_ne "device_id" "connection_type" _ _ _ (by decide),
      mfind_ite_mput_ne "device_id" "disconnected_at" _ _ _ (by decide),
      mfind_ite_mput_ne "device_id" "connected_at" _ _ _ (by decide),
      mfind_ite_mput_ne "device_id" "status" _ _ _ (by decide),
      mfind_ite_mput_ne "device_id" "channel_name" _ _ _ (by decide)]
    rfl
  · simp only [connectionStatusMarshal]
    rw [mfind_ite_mput_self "connection_history" _ _ _,
      mfind_ite_metaFold_ne "connection_history" _ _ _ (hm _ (by decide)),
      mfind_ite_mput_ne "connection_history" "device_id" _ _ _ (by decide),
      mfind_ite_mput_ne "connection_history" "last_pinged_at" _ _ _ (by decide),
      mfind_ite_mput_ne "connection_history" "duration" _ _ _ (by decide),
      mfind_ite_mput_ne "connection_history" "connection_type" _ _ _ (by decide),
      mfind_ite_mput_ne "connection_history" "disconnected_at" _ _ _ (by decide),
      mfind_ite_mput_ne "connection_history" "connected_at" _ _ _ (by decide),
      mfind_ite_mput_ne "connection_history" "status" _ _ _ (by decide),
      mfind_ite_mput_ne "connection_history" "channel_name" _ _ _ (by decide)]
    rfl
  · intro kv hkv
    obtain ⟨k1, v1⟩ := kv
    have hk1 : k1 ∉ statusReservedKeys := hmeta (k1, v1) hkv
    have hlen : 0 < h.metadata.length :=
      List.length_pos.mpr (fun hnil => by rw [hnil] at hkv; cases hkv)
    simp only [connectionStatusMarshal]
    rw [mfind_ite_mput_ne k1 "connection_history" _ _ _
        (fun hc => hk1 (by rw [hc]; decide)),
      if_pos hlen]
    exact mfind_metaFold_mem k1 v1 h.metadata _ hkv hnodup
  · intro k hk hnotmeta
    have hne : ∀ kr, kr ∈ statusReservedKeys → k ≠ kr := by
      intro kr hkr hc
      exact hk (by rw [hc]; exact hkr)
    have hmk : ∀ kv ∈ h.metadata, kv.1 ≠ k := by
      intro kv hkv hc
      exact hnotmeta kv.2 (by rw [← hc]; simpa using hkv)
    simp only [connectionStatusMarshal]
    rw [mfind_ite_mput_ne k "connection_history" _ _ _ (hne _ (by decide)),
      mfind_ite_metaFold_ne k _ _ _ hmk,
      mfind_ite_mput_ne k "device_id" _ _ _ (hne _ (by decide)),
      mfind_ite_mput_ne k "last_pinged_at" _ _ _ (hne _ (by decide)),
      mfind_ite_mput_ne k "duration" _ _ _ (hne _ (by decide)),
      mfind_ite_mput_ne k "connection_type" _ _ _ (hne _ (by decide)),
      mfind_ite_mput_ne k "disconnected_at" _ _ _ (hne _ (by decide)),
      mfind_ite_mput_ne k "connected_at" _ _ _ (hne _ (by decide)),
      mfind_ite_mput_ne k "status" _ _ _ (hne _ (by decide)),
      mfind_ite_mput_ne k "channel_name" _ _ _ (hne _ (by decide))]
    rfl

/-- Witness for C9 at `c9Sample`. -/
theorem connection_status_marshal_spec_witness :
    ((∀ kv ∈ c9Sample.metadata, kv.1 ∉ statusReservedKeys) ∧
      (c9Sample.metadata.map Prod.fst).Nodup) ∧
    ((mfind "channel_name" (connectionStatusMarshal c9Sample)
      = if 0 < c9Sample.channelName.length then some (JVal.jstr c9Sample.channelName) else none) ∧
    (mfind "status" (connectionStatusMarshal c9Sample)
      = if 0 < c9Sample.status.length then some (JVal.jstr c9Sample.status) else none) ∧
    (mfind "connected_at" (connectionStatusMarshal c9Sample)
      = if c9Sample.connectedAt.isZero = false
        then some (JVal.jint (NanoToMilli c9Sample.connectedAt.nano)) else none) ∧
    (mfind "disconnected_at" (connectionStatusMarshal c9Sample)
      = if c9Sample.disconnectedAt.isZero = false
        then some (JVal.jint (NanoToMilli c9Sample.disconnectedAt.nano)) else none) ∧
    (mfind "connection_type" (connectionStatusMarshal c9Sample)
      = if 0 < c9Sample.connectionType.length then some (JVal.jstr c9Sample.connectionType) else none) ∧
    (mfind "duration" (connectionStatusMarshal c9Sample)
      = if 0 < c9Sample.duration then some (JVal.jint (NanoToMilli c9Sample.duration)) else none) ∧
    (mfind "last_pinged_at" (connectionStatusMarshal c9Sample)
      = if c9Sample.lastPingedAt.isZero = false
        then some (JVal.jint (NanoToMilli c9Sample.lastPingedAt.nano)) else none) ∧
    (mfind "device_id" (connectionStatusMarshal c9Sample)
      = if 0 < c9Sample.identifier.length then some (JVal.jstr c9Sample.identifier) else none) ∧
    (mfind "connection_history" (connectionStatusMarshal c9Sample)
      = if 0 < c9Sample.histories.length then some (JVal.jhist c9Sample.histories) else none) ∧
    (∀ kv ∈ c9Sample.metadata,
      mfind kv.1 (connectionStatusMarshal c9Sample) = some (JVal.jstr kv.2)) ∧
    (∀ k, k ∉ statusReservedKeys → (∀ v, (k, v) ∉ c9Sample.metadata) →
      mfind k (connectionStatusMarshal c9Sample) = none)) :=
  ⟨⟨by decide, by decide⟩,
    connection_status_marshal_spec c9Sample (by decide) (by decide)⟩

/-- Counterexample to claim C10's final clause as stated: the bytes
`[1]` are valid JSON, yet `UnmarshalJSON` returns an error value (the
decode into `map[string]interface{}` fails on a non-object), so the
method returns errors on some valid JSON too, not only on invalid
bytes. -/
theorem connection_history_unmarshal_err_on_valid_json :
    connectionHistoryUnmarshal (.parsed (.jarr [.jnum 1])) = .err ∧
    (GoJSON.jarr [.jnum 1]).isObj = false :=
  ⟨rfl, rfl⟩

/-- Claim C10, amended: `UnmarshalJSON` is not total over well-formed
JSON objects — an object binding a recognized key to a value of an
unexpected JSON type (here `"ip"` to the number 5, and `"timestamp"` to a
string) panics at the unchecked type assertion instead of returning an
error — and it returns an error value only when the bytes are not valid
JSON or the decoded top-level value is not a JSON object: on valid
objects it never returns an error. -/
theorem connection_history_unmarshal_panics (v : GoJSON)
    (hv : v.isObj = false) :
    connectionHistoryUnmarshal (.parsed (.jobj [("ip", .jnum 5)])) = .panicked ∧
    connectionHistoryUnmarshal (.parsed (.jobj [("timestamp", .jstr "now")]))
      = .panicked ∧
    (∀ fields, connectionHistoryUnmarshal (.parsed (.jobj fields))
      ≠ .err) ∧
    connectionHistoryUnmarshal .invalidBytes = .err ∧
    connectionHistoryUnmarshal (.parsed v) = .err := by
  refine ⟨rfl, rfl, ?_, rfl, ?_⟩
  · intro fields
    cases hcase : connectionHistoryUnmarshalObj fields <;>
      simp [connectionHistoryUnmarshal, hcase]
  · cases v <;> first | rfl | cases hv

/-- Witness for the amended C10 at the array value. -/
theorem connection_history_unmarshal_panics_witness :
    (GoJSON.jarr [.jnum 1]).isObj = false ∧
    (connectionHistoryUnmarshal (.parsed (.jobj [("ip", .jnum 5)])) = .panicked ∧
    connectionHistoryUnmarshal (.parsed (.jobj [("timestamp", .jstr "now")]))
      = .panicked ∧
    (∀ fields, connectionHistoryUnmarshal (.parsed (.jobj fields))
      ≠ .err) ∧
    connectionHistoryUnmarshal .invalidBytes = .err ∧
    connectionHistoryUnmarshal (.parsed (.jarr [.jnum 1])) = .err) :=
  ⟨rfl, connection_history_unmarshal_panics (.jarr [.jnum 1]) rfl⟩
